import Mathlib

/-!
Shallow embedding of the token lifecycle manager in `src/sdk/src/Client.js`
(the `ADSKSpark.Client` singleton and its private helpers).

Modelling conventions:

* `localStorage` holds two keys, `spark-guest-token` and `spark-access-token`.
  A slot's raw string value is modelled by `Option StoredVal`: `none` is an
  absent key (`getItem` returns `null`, and `JSON.parse(null)` yields `null`),
  `some .malformed` is a string that is not valid JSON (`JSON.parse` throws a
  SyntaxError), and `some (.record r)` is the JSON serialization of an object.
  Valid-JSON values that are not truthy objects (`"null"`, `"0"`, `"false"`,
  `""` contents) behave in every read path exactly like an absent key (the
  first check on the parsed value is its truthiness), so the quotient into
  `none` is behaviour-preserving; a truthy non-object value behaves like a
  record all of whose fields are absent.

* JavaScript field access on a possibly-missing field is modelled with
  `Option`; JS truthiness of a string field is `truthyStr` (missing or empty
  string is falsy) and of a numeric field is `truthyInt` (missing or 0 is
  falsy).

* `Date.now()` is a `Nat` parameter `now` (epoch milliseconds, never
  negative). `parseInt(data.expires_in)` on a present integer field is the
  identity; on a missing field it is `NaN`, and the resulting `NaN`
  `expires_at` is falsy and serializes to `null`, which the model folds into
  `none` (see `computeExpiresAt`).

* A network call result is passed in as `Except JsError TokenRecord`
  (`.error` = rejected transport promise, `.ok` = resolved parsed body).
  Promise-returning operations yield an `OpResult`: the storage state after
  the operation, the eventual settlement of the returned promise
  (`Outcome`), and whether a network request was issued at all.
  `Outcome.pending` marks a promise that never settles (an inner rejection
  with no handler attached).
-/

namespace SparkClient

/-- A raised JS error: either a JSON.parse SyntaxError or `new Error(msg)`. -/
inductive JsError where
  | parseFailure
  | errorMsg (msg : String)
deriving DecidableEq, Repr

/-- A parsed token object. All fields are optional; `none` is a missing
field. Mirrors the JSON shapes of `Client.js`: `access_token`,
`expires_in` (seconds), `expires_at` (epoch ms), `refresh_token`, `Error`. -/
structure TokenRecord where
  access_token : Option String := none
  expires_in : Option Int := none
  expires_at : Option Int := none
  refresh_token : Option String := none
  Error : Option String := none
deriving DecidableEq, Repr

/-- The raw value persisted under one localStorage key. -/
inductive StoredVal where
  | malformed
  | record (r : TokenRecord)
deriving DecidableEq, Repr

/-- The two localStorage slots used by `Client.js`:
`spark-guest-token` and `spark-access-token`. -/
structure Store where
  guestToken : Option StoredVal := none
  accessToken : Option StoredVal := none
deriving DecidableEq, Repr

/-- Client configuration relevant to the modelled operations: the three
optional collaborator URLs set by `initialize` (a missing or empty string
option is stored as `null`, which is falsy exactly like the empty string,
so `truthyStr` tests "configured"). -/
structure Config where
  guestTokenUrl : Option String := none
  accessTokenUrl : Option String := none
  refreshTokenUrl : Option String := none
deriving DecidableEq, Repr

/-- Eventual settlement of a returned promise. `pending` is a promise that
never settles: an inner promise rejected and no rejection handler was
attached, so the outer executor never calls resolve or reject. -/
inductive Outcome (α : Type) where
  | resolved (a : α)
  | rejected (e : JsError)
  | pending
deriving DecidableEq, Repr

/-- Result of a promise-returning operation: the storage state when the
promise settles, the settlement itself, and whether a network request was
issued. -/
structure OpResult (α : Type) where
  store : Store
  outcome : Outcome α
  networkCalled : Bool
deriving DecidableEq, Repr

/-- JS truthiness of a possibly-missing string field. -/
def truthyStr : Option String → Bool
  | none => false
  | some s => s != ""

/-- JS truthiness of a possibly-missing integer field. -/
def truthyInt : Option Int → Bool
  | none => false
  | some n => n != 0

/-- JS string coercion of a possibly-missing string, as in
`'Bearer ' + token.access_token`: a missing field prints as "undefined". -/
def jsStr : Option String → String
  | none => "undefined"
  | some s => s

/-- `JSON.parse(localStorage.getItem(key))`: an absent key gives `null`
(which reads as no token), a malformed value throws a SyntaxError, a
serialized record parses back. -/
def jsonParse : Option StoredVal → Except JsError (Option TokenRecord)
  | none => Except.ok none
  | some StoredVal.malformed => Except.error JsError.parseFailure
  | some (StoredVal.record r) => Except.ok (some r)

/-- `now + parseInt(expires_in) * 1000`. A missing `expires_in` gives `NaN`,
which is falsy and serializes to `null`; the model folds that into `none`. -/
def computeExpiresAt (now : Nat) (expiresIn : Option Int) : Option Int :=
  match expiresIn with
  | none => none
  | some n => some ((now : Int) + n * 1000)

/-- The truthiness-plus-expiry test `token && token.expires_at &&
token.expires_at > now` applied to a parsed slot value. -/
def tokenTruthyAndNotExpired (tok : Option TokenRecord) (now : Nat) : Bool :=
  match tok with
  | none => false
  | some r =>
    match r.expires_at with
    | none => false
    | some e => e != 0 && decide ((now : Int) < e)

/-- The refresh trigger of `authorizedApiRequest`:
`_refreshTokenUrl && token.expires_at && now > token.expires_at`. -/
def refreshDue (cfg : Config) (r : TokenRecord) (now : Nat) : Bool :=
  truthyStr cfg.refreshTokenUrl && truthyInt r.expires_at &&
    decide (r.expires_at.getD 0 < (now : Int))

/-- `logout`: removes the access-token key only. -/
def logout (store : Store) : Store :=
  { store with accessToken := none }

/-- `isAccessTokenValid`: parses the access-token slot (propagating a parse
exception), removes the record via `logout` when it is truthy with a truthy
`expires_at` strictly below `now`, and returns whether the parsed record is
truthy with a truthy `expires_at` strictly above `now`. The returned pair is
(storage after the call, returned boolean). -/
def isAccessTokenValid (store : Store) (now : Nat) :
    Except JsError (Store × Bool) :=
  match jsonParse store.accessToken with
  | Except.error e => Except.error e
  | Except.ok tok =>
    let store2 :=
      match tok with
      | none => store
      | some r =>
        match r.expires_at with
        | none => store
        | some e =>
          if e != 0 && decide (e < (now : Int)) then logout store else store
    Except.ok (store2, tokenTruthyAndNotExpired tok now)

/-- `getAccessTokenObject`: parses the access-token slot and returns the
record when it is truthy with a truthy `access_token`, else `null`. -/
def getAccessTokenObject (store : Store) :
    Except JsError (Option TokenRecord) :=
  match jsonParse store.accessToken with
  | Except.error e => Except.error e
  | Except.ok tok =>
    match tok with
    | none => Except.ok none
    | some r => Except.ok (if truthyStr r.access_token then some r else none)

/-- `getAccessToken`: parses the access-token slot and returns the
`access_token` string when the record and the field are truthy, else
`null`. -/
def getAccessToken (store : Store) : Except JsError (Option String) :=
  match jsonParse store.accessToken with
  | Except.error e => Except.error e
  | Except.ok tok =>
    match tok with
    | none => Except.ok none
    | some r =>
      Except.ok (if truthyStr r.access_token then r.access_token else none)

/-- `getGuestTokenFromServer`: when `_guestTokenUrl` is truthy, issues the
network call; on a resolved body, sets `expires_at`, persists the body to
the guest-token slot, and resolves with its `access_token`; a transport
rejection propagates. When the URL is not configured, rejects immediately
with "No Server Implementation" and no network attempt. -/
def getGuestTokenFromServer (cfg : Config) (store : Store) (now : Nat)
    (net : Except JsError TokenRecord) : OpResult (Option String) :=
  if truthyStr cfg.guestTokenUrl then
    match net with
    | Except.error e =>
      { store := store, outcome := Outcome.rejected e, networkCalled := true }
    | Except.ok data =>
      let d := { data with expires_at := computeExpiresAt now data.expires_in }
      { store := { store with guestToken := some (StoredVal.record d) }
        outcome := Outcome.resolved d.access_token
        networkCalled := true }
  else
    { store := store
      outcome := Outcome.rejected (JsError.errorMsg "No Server Implementation")
      networkCalled := false }

/-- `getGuestToken`: parses the guest-token slot; when that parses falsy,
re-reads the access-token slot in its place; if the chosen record is truthy
with a truthy, strictly-future `expires_at`, resolves with its
`access_token` and no network call; otherwise delegates to
`getGuestTokenFromServer`. The outer `Except` is a synchronous
`JSON.parse` exception thrown before any promise exists. -/
def getGuestToken (cfg : Config) (store : Store) (now : Nat)
    (net : Except JsError TokenRecord) :
    Except JsError (OpResult (Option String)) :=
  match jsonParse store.guestToken with
  | Except.error e => Except.error e
  | Except.ok g =>
    let chosen : Except JsError (Option TokenRecord) :=
      match g with
      | some r => Except.ok (some r)
      | none => jsonParse store.accessToken
    match chosen with
    | Except.error e => Except.error e
    | Except.ok tok =>
      if tokenTruthyAndNotExpired tok now then
        Except.ok
          { store := store
            outcome := Outcome.resolved ((tok.getD {}).access_token)
            networkCalled := false }
      else
        Except.ok (getGuestTokenFromServer cfg store now net)

/-- `refreshAccessToken`: when `_refreshTokenUrl` is truthy, issues the
network call; on a resolved body without a truthy `Error` field, sets
`expires_at` on the body, persists a clone with `refresh_token` deleted to
the access-token slot, and resolves with the (mutated, unstripped) body; on
a body with a truthy `Error`, persists nothing and still resolves with the
body. When the URL is not configured, rejects immediately with
"No Server Implementation" and no network attempt. -/
def refreshAccessToken (cfg : Config) (store : Store) (now : Nat)
    (net : Except JsError TokenRecord) : OpResult TokenRecord :=
  if truthyStr cfg.refreshTokenUrl then
    match net with
    | Except.error e =>
      { store := store, outcome := Outcome.rejected e, networkCalled := true }
    | Except.ok data =>
      if truthyStr data.Error then
        { store := store, outcome := Outcome.resolved data
          networkCalled := true }
      else
        let d := { data with expires_at := computeExpiresAt now data.expires_in }
        let cloned := { d with refresh_token := none }
        { store := { store with accessToken := some (StoredVal.record cloned) }
          outcome := Outcome.resolved d
          networkCalled := true }
  else
    { store := store
      outcome := Outcome.rejected (JsError.errorMsg "No Server Implementation")
      networkCalled := false }

/-- `completeImplicitLogin`: builds a fresh record from the redirect access
token and `expiresIn`, persists it to the access-token slot, and returns
the access token string. No network call. -/
def completeImplicitLogin (store : Store) (now : Nat) (accessToken : String)
    (expiresIn : Option Int) : Store × String :=
  let data : TokenRecord :=
    { access_token := some accessToken
      expires_at := computeExpiresAt now expiresIn }
  ({ store with accessToken := some (StoredVal.record data) }, accessToken)

/-- `completeServerLogin`: when `_accessTokenUrl` is truthy, exchanges the
code over the network; on a resolved body with truthy `expires_in` and
`access_token`, sets `expires_at`, deletes `refresh_token`, persists to the
access-token slot, and resolves with the access token; otherwise rejects
with `new Error(data.Error)`. When the URL is not configured, rejects
immediately with "No Server Implementation" and no network attempt. (The
`code` and redirect-URI request parameters only shape the abstracted
network call.) -/
def completeServerLogin (cfg : Config) (store : Store) (now : Nat)
    (net : Except JsError TokenRecord) : OpResult (Option String) :=
  if truthyStr cfg.accessTokenUrl then
    match net with
    | Except.error e =>
      { store := store, outcome := Outcome.rejected e, networkCalled := true }
    | Except.ok data =>
      if truthyInt data.expires_in && truthyStr data.access_token then
        let d := { data with
                   expires_at := computeExpiresAt now data.expires_in
                   refresh_token := none }
        { store := { store with accessToken := some (StoredVal.record d) }
          outcome := Outcome.resolved d.access_token
          networkCalled := true }
      else
        { store := store
          outcome := Outcome.rejected (JsError.errorMsg (jsStr data.Error))
          networkCalled := true }
  else
    { store := store
      outcome := Outcome.rejected (JsError.errorMsg "No Server Implementation")
      networkCalled := false }

/-- The authorization-header resolution of `authorizedApiRequest`: inside
the promise executor, parse the access-token slot (a parse exception
rejects the promise); resolve `null` when the parsed value is falsy; when
the refresh trigger fires, call `refreshAccessToken` and resolve
`'Bearer ' + refreshed.access_token` on its resolution — its rejection has
no handler, so the header promise then never settles; otherwise resolve
`'Bearer ' + token.access_token`. Returns (storage after settlement,
settlement). -/
def authHeaderUser (cfg : Config) (store : Store) (now : Nat)
    (net : Except JsError TokenRecord) : Store × Outcome (Option String) :=
  match jsonParse store.accessToken with
  | Except.error e => (store, Outcome.rejected e)
  | Except.ok none => (store, Outcome.resolved none)
  | Except.ok (some token) =>
    if refreshDue cfg token now then
      let res := refreshAccessToken cfg store now net
      match res.outcome with
      | Outcome.resolved data =>
        (res.store,
          Outcome.resolved (some ("Bearer " ++ jsStr data.access_token)))
      | Outcome.rejected _ => (res.store, Outcome.pending)
      | Outcome.pending => (res.store, Outcome.pending)
    else
      (store, Outcome.resolved (some ("Bearer " ++ jsStr token.access_token)))

/-- The authorization-header resolution of `authorizedAsGuestApiRequest`:
inside the promise executor, call `getGuestToken` (its synchronous parse
exception rejects the promise); on its resolution, resolve
`'Bearer ' + token` when the token is truthy and `null` otherwise — its
rejection has no handler, so the header promise then never settles. -/
def authHeaderGuest (cfg : Config) (store : Store) (now : Nat)
    (net : Except JsError TokenRecord) : Store × Outcome (Option String) :=
  match getGuestToken cfg store now net with
  | Except.error e => (store, Outcome.rejected e)
  | Except.ok res =>
    match res.outcome with
    | Outcome.resolved tok =>
      (res.store,
        Outcome.resolved
          (if truthyStr tok then some ("Bearer " ++ jsStr tok) else none))
    | Outcome.rejected _ => (res.store, Outcome.pending)
    | Outcome.pending => (res.store, Outcome.pending)

/-! ## Helper lemmas -/

/-- A slot whose raw value is not malformed always parses without an
exception. -/
theorem jsonParse_ok_of_not_malformed (s : Option StoredVal)
    (h : s ≠ some StoredVal.malformed) :
    ∃ t, jsonParse s = Except.ok t := by
  match s with
  | none => exact ⟨none, rfl⟩
  | some StoredVal.malformed => exact absurd rfl h
  | some (StoredVal.record r) => exact ⟨some r, rfl⟩

/-- When neither slot holds malformed JSON, getGuestToken returns without a
synchronous exception. -/
theorem getGuestToken_ok_of_wellformed (cfg : Config) (store : Store)
    (now : Nat) (net : Except JsError TokenRecord)
    (hg : store.guestToken ≠ some StoredVal.malformed)
    (ha : store.accessToken ≠ some StoredVal.malformed) :
    ∃ v, getGuestToken cfg store now net = Except.ok v := by
  obtain ⟨g, hgp⟩ := jsonParse_ok_of_not_malformed store.guestToken hg
  obtain ⟨a, hap⟩ := jsonParse_ok_of_not_malformed store.accessToken ha
  unfold getGuestToken
  rw [hgp]
  match g with
  | some r =>
    dsimp only
    by_cases hv : tokenTruthyAndNotExpired (some r) now = true
    · rw [if_pos hv]; exact ⟨_, rfl⟩
    · rw [if_neg hv]; exact ⟨_, rfl⟩
  | none =>
    dsimp only
    rw [hap]
    dsimp only
    by_cases hv : tokenTruthyAndNotExpired a now = true
    · rw [if_pos hv]; exact ⟨_, rfl⟩
    · rw [if_neg hv]; exact ⟨_, rfl⟩

/-- A synchronous exception out of getGuestToken is always a JSON.parse
failure on a malformed slot. -/
theorem getGuestToken_error_malformed (cfg : Config) (store : Store)
    (now : Nat) (net : Except JsError TokenRecord) (e : JsError)
    (h : getGuestToken cfg store now net = Except.error e) :
    e = JsError.parseFailure ∧
      (store.guestToken = some StoredVal.malformed ∨
        store.accessToken = some StoredVal.malformed) := by
  by_cases hg : store.guestToken = some StoredVal.malformed
  · unfold getGuestToken at h
    rw [hg] at h
    dsimp only [jsonParse] at h
    injection h with h2
    exact ⟨h2.symm, Or.inl hg⟩
  · by_cases ha : store.accessToken = some StoredVal.malformed
    · obtain ⟨g, hgp⟩ := jsonParse_ok_of_not_malformed store.guestToken hg
      unfold getGuestToken at h
      rw [hgp] at h
      match g, h with
      | some r, h =>
        dsimp only at h
        by_cases hv : tokenTruthyAndNotExpired (some r) now = true
        · rw [if_pos hv] at h; cases h
        · rw [if_neg hv] at h; cases h
      | none, h =>
        dsimp only at h
        rw [ha] at h
        dsimp only [jsonParse] at h
        injection h with h2
        exact ⟨h2.symm, Or.inr ha⟩
    · obtain ⟨v, hv⟩ := getGuestToken_ok_of_wellformed cfg store now net hg ha
      rw [hv] at h
      cases h

/-! ## Claims -/

/-- C10: logout removes only the access-token slot; the guest-token slot's
persisted value is unchanged by logout. -/
theorem C10_logout_frame (store : Store) :
    (logout store).guestToken = store.guestToken ∧
    (logout store).accessToken = none :=
  ⟨rfl, rfl⟩

/-- C9: the validity test used on a parsed record reports it valid iff its
expiry timestamp is present and strictly greater than now; in particular a
record with expiry timestamp at or below now is reported invalid. -/
theorem C9_validity (r : TokenRecord) (now : Nat) :
    (tokenTruthyAndNotExpired (some r) now = true ↔
      ∃ e : Int, r.expires_at = some e ∧ (now : Int) < e) ∧
    (∀ e : Int, r.expires_at = some e → e ≤ (now : Int) →
      tokenTruthyAndNotExpired (some r) now = false) := by
  have hred : tokenTruthyAndNotExpired (some r) now =
      (match r.expires_at with
       | none => false
       | some e => e != 0 && decide ((now : Int) < e)) := rfl
  cases h : r.expires_at with
  | none =>
    rw [hred, h]
    exact ⟨by simp, by rintro e he _; cases he⟩
  | some e =>
    rw [hred, h]
    constructor
    · simp only [Bool.and_eq_true, bne_iff_ne, decide_eq_true_eq]
      constructor
      · rintro ⟨hne, hlt⟩; exact ⟨e, rfl, hlt⟩
      · rintro ⟨e2, he2, hlt⟩
        injection he2 with he2
        subst he2
        exact ⟨by omega, hlt⟩
    · intro e2 he2 hle
      injection he2 with he2
      subst he2
      have hd : decide ((now : Int) < e) = false :=
        decide_eq_false (not_lt.mpr hle)
      simp [hd]

/-- Witness for C9 at concrete inputs: expiry 7 is valid at time 5, expiry
5 is invalid at time 5. -/
theorem C9_validity_witness :
    tokenTruthyAndNotExpired (some { expires_at := some 7 }) 5 = true ∧
    tokenTruthyAndNotExpired (some { expires_at := some 5 }) 5 = false :=
  ⟨(C9_validity { expires_at := some 7 } 5).1.mpr ⟨7, rfl, by decide⟩,
   (C9_validity { expires_at := some 5 } 5).2 5 rfl (by decide)⟩

/-- C8: when the collaborator URL an operation requires (guest-token
issuance, access-token code exchange, token refresh) is not configured, the
operation rejects immediately with "No Server Implementation", makes no
network attempt, and leaves storage unchanged. -/
theorem C8_no_server_implementation (cfg : Config) (store : Store)
    (now : Nat) (net : Except JsError TokenRecord) :
    (truthyStr cfg.guestTokenUrl = false →
      getGuestTokenFromServer cfg store now net =
        { store := store
          outcome := Outcome.rejected
            (JsError.errorMsg "No Server Implementation")
          networkCalled := false }) ∧
    (truthyStr cfg.accessTokenUrl = false →
      completeServerLogin cfg store now net =
        { store := store
          outcome := Outcome.rejected
            (JsError.errorMsg "No Server Implementation")
          networkCalled := false }) ∧
    (truthyStr cfg.refreshTokenUrl = false →
      refreshAccessToken cfg store now net =
        { store := store
          outcome := Outcome.rejected
            (JsError.errorMsg "No Server Implementation")
          networkCalled := false }) := by
  refine ⟨fun h => ?_, fun h => ?_, fun h => ?_⟩
  · simp [getGuestTokenFromServer, h]
  · simp [completeServerLogin, h]
  · simp [refreshAccessToken, h]

/-- Witness for C8: with no URLs configured, all three operations reject
with "No Server Implementation" without touching the network or storage. -/
theorem C8_witness :
    getGuestTokenFromServer {} {} 0 (Except.ok {}) =
      { store := {}
        outcome := Outcome.rejected (JsError.errorMsg "No Server Implementation")
        networkCalled := false } ∧
    completeServerLogin {} {} 0 (Except.ok {}) =
      { store := {}
        outcome := Outcome.rejected (JsError.errorMsg "No Server Implementation")
        networkCalled := false } ∧
    refreshAccessToken {} {} 0 (Except.ok {}) =
      { store := {}
        outcome := Outcome.rejected (JsError.errorMsg "No Server Implementation")
        networkCalled := false } :=
  ⟨(C8_no_server_implementation {} {} 0 (Except.ok {})).1 rfl,
   (C8_no_server_implementation {} {} 0 (Except.ok {})).2.1 rfl,
   (C8_no_server_implementation {} {} 0 (Except.ok {})).2.2 rfl⟩

/-- C5: a refresh response carrying a (truthy) error indicator is not
persisted — storage is unchanged — and the raw response is still handed to
the caller through a resolved promise, not a rejection. -/
theorem C5_refresh_error_returned (cfg : Config) (store : Store) (now : Nat)
    (data : TokenRecord)
    (hurl : truthyStr cfg.refreshTokenUrl = true)
    (herr : truthyStr data.Error = true) :
    refreshAccessToken cfg store now (Except.ok data) =
      { store := store
        outcome := Outcome.resolved data
        networkCalled := true } := by
  simp [refreshAccessToken, hurl, herr]

/-- Witness for C5: a refresh response with Error "bad" is returned
resolved and nothing is persisted. -/
theorem C5_witness :
    refreshAccessToken { refreshTokenUrl := some "u" } {} 0
        (Except.ok { Error := some "bad" }) =
      { store := {}
        outcome := Outcome.resolved { Error := some "bad" }
        networkCalled := true } :=
  C5_refresh_error_returned { refreshTokenUrl := some "u" } {} 0
    { Error := some "bad" } (by decide) (by decide)

/-- C6: a successful refresh (no truthy error indicator) persists to the
access-token slot a record with the refresh-token field stripped, while the
promise resolves with the unstripped record: a refresh_token in the
response appears in the resolved value but never in the persisted one, and
the persisted record is exactly the resolved record minus refresh_token. -/
theorem C6_refresh_strips_persisted_only (cfg : Config) (store : Store)
    (now : Nat) (data : TokenRecord)
    (hurl : truthyStr cfg.refreshTokenUrl = true)
    (herr : truthyStr data.Error = false) :
    ∃ persisted resolvedRec : TokenRecord,
      (refreshAccessToken cfg store now (Except.ok data)).store.accessToken =
        some (StoredVal.record persisted) ∧
      (refreshAccessToken cfg store now (Except.ok data)).outcome =
        Outcome.resolved resolvedRec ∧
      persisted.refresh_token = none ∧
      resolvedRec.refresh_token = data.refresh_token ∧
      persisted.access_token = data.access_token ∧
      resolvedRec.access_token = data.access_token ∧
      persisted = { resolvedRec with refresh_token := none } := by
  refine ⟨{ data with expires_at := computeExpiresAt now data.expires_in
                      refresh_token := none },
          { data with expires_at := computeExpiresAt now data.expires_in },
          ?_, ?_, rfl, rfl, rfl, rfl, rfl⟩
  · simp [refreshAccessToken, hurl, herr]
  · simp [refreshAccessToken, hurl, herr]

/-- Witness for C6: a response carrying refresh_token "r" resolves with
refresh_token "r" but persists a record without it. -/
theorem C6_witness :
    ∃ persisted resolvedRec : TokenRecord,
      (refreshAccessToken { refreshTokenUrl := some "u" } {} 0
          (Except.ok { access_token := some "a", expires_in := some 60
                       refresh_token := some "r" })).store.accessToken =
        some (StoredVal.record persisted) ∧
      (refreshAccessToken { refreshTokenUrl := some "u" } {} 0
          (Except.ok { access_token := some "a", expires_in := some 60
                       refresh_token := some "r" })).outcome =
        Outcome.resolved resolvedRec ∧
      persisted.refresh_token = none ∧
      resolvedRec.refresh_token =
        ({ access_token := some "a", expires_in := some 60
           refresh_token := some "r" } : TokenRecord).refresh_token ∧
      persisted.access_token =
        ({ access_token := some "a", expires_in := some 60
           refresh_token := some "r" } : TokenRecord).access_token ∧
      resolvedRec.access_token =
        ({ access_token := some "a", expires_in := some 60
           refresh_token := some "r" } : TokenRecord).access_token ∧
      persisted = { resolvedRec with refresh_token := none } :=
  C6_refresh_strips_persisted_only { refreshTokenUrl := some "u" } {} 0
    { access_token := some "a", expires_in := some 60
      refresh_token := some "r" } (by decide) rfl

/-- C7: every writer of the access-token slot (implicit login completion,
server-mediated login completion, refresh) either leaves the slot exactly
as it was or persists a record whose refresh-token field is absent — so a
persisted access-token payload never carries a refresh token. -/
theorem C7_persisted_never_has_refresh_token (cfg : Config) (store : Store)
    (now : Nat) (accessToken : String) (expiresIn : Option Int)
    (net : Except JsError TokenRecord) :
    (∃ r : TokenRecord,
      (completeImplicitLogin store now accessToken expiresIn).1.accessToken =
        some (StoredVal.record r) ∧ r.refresh_token = none) ∧
    ((completeServerLogin cfg store now net).store.accessToken =
        store.accessToken ∨
      ∃ r : TokenRecord,
        (completeServerLogin cfg store now net).store.accessToken =
          some (StoredVal.record r) ∧ r.refresh_token = none) ∧
    ((refreshAccessToken cfg store now net).store.accessToken =
        store.accessToken ∨
      ∃ r : TokenRecord,
        (refreshAccessToken cfg store now net).store.accessToken =
          some (StoredVal.record r) ∧ r.refresh_token = none) := by
  refine ⟨⟨_, rfl, rfl⟩, ?_, ?_⟩
  · unfold completeServerLogin
    split
    · match net with
      | Except.error e => exact Or.inl rfl
      | Except.ok data =>
        simp only
        split
        · exact Or.inr ⟨_, rfl, rfl⟩
        · exact Or.inl rfl
    · exact Or.inl rfl
  · unfold refreshAccessToken
    split
    · match net with
      | Except.error e => exact Or.inl rfl
      | Except.ok data =>
        simp only
        split
        · exact Or.inl rfl
        · exact Or.inr ⟨_, rfl, rfl⟩
    · exact Or.inl rfl

/-- C1, counterexample: with a value that is not valid JSON persisted in
the access-token slot, isAccessTokenValid propagates the JSON.parse
exception instead of treating the value as absent. -/
theorem C1_counterexample :
    isAccessTokenValid { accessToken := some StoredVal.malformed } 0 =
      Except.error JsError.parseFailure := rfl

/-- C1, amended: when the persisted value of a slot is absent or
well-formed (parseable) JSON, each read operation returns normally,
treating unusable values as absent; but when the persisted value is not
valid JSON, JSON.parse throws and every read that parses that slot
propagates the exception rather than treating it as absent. -/
theorem C1_malformed_reads (cfg : Config) (store : Store) (now : Nat)
    (net : Except JsError TokenRecord) :
    (store.accessToken ≠ some StoredVal.malformed →
      (∃ v, isAccessTokenValid store now = Except.ok v) ∧
      (∃ v, getAccessTokenObject store = Except.ok v) ∧
      (∃ v, getAccessToken store = Except.ok v)) ∧
    (store.guestToken ≠ some StoredVal.malformed →
      store.accessToken ≠ some StoredVal.malformed →
      ∃ v, getGuestToken cfg store now net = Except.ok v) ∧
    (store.accessToken = some StoredVal.malformed →
      isAccessTokenValid store now = Except.error JsError.parseFailure ∧
      getAccessTokenObject store = Except.error JsError.parseFailure ∧
      getAccessToken store = Except.error JsError.parseFailure) ∧
    (store.guestToken = some StoredVal.malformed →
      getGuestToken cfg store now net = Except.error JsError.parseFailure) := by
  refine ⟨?_, ?_, ?_, ?_⟩
  · intro h
    obtain ⟨t, ht⟩ := jsonParse_ok_of_not_malformed store.accessToken h
    refine ⟨?_, ?_, ?_⟩
    · unfold isAccessTokenValid
      rw [ht]
      exact ⟨_, rfl⟩
    · unfold getAccessTokenObject
      rw [ht]
      match t with
      | none => exact ⟨_, rfl⟩
      | some r => exact ⟨_, rfl⟩
    · unfold getAccessToken
      rw [ht]
      match t with
      | none => exact ⟨_, rfl⟩
      | some r => exact ⟨_, rfl⟩
  · intro hg ha
    exact getGuestToken_ok_of_wellformed cfg store now net hg ha
  · intro h
    unfold isAccessTokenValid getAccessTokenObject getAccessToken
    rw [h]
    exact ⟨rfl, rfl, rfl⟩
  · intro h
    unfold getGuestToken
    rw [h]
    rfl

/-- Witness for C1 amended: an empty store reads without an exception, and
a malformed access-token slot makes getAccessToken throw. -/
theorem C1_witness :
    (∃ v, isAccessTokenValid {} 0 = Except.ok v) ∧
    getAccessToken { accessToken := some StoredVal.malformed } =
      Except.error JsError.parseFailure :=
  ⟨((C1_malformed_reads {} {} 0 (Except.ok {})).1 (by simp)).1,
   ((C1_malformed_reads {} { accessToken := some StoredVal.malformed } 0
      (Except.ok {})).2.2.1 rfl).2.2⟩

/-- C2, counterexample: with a record whose expiry (5) is past in the
access-token slot, getAccessTokenObject still returns the record — not
absent — and storage is left untouched (the function has no side effect at
all, whatever the current time). -/
theorem C2_counterexample :
    getAccessTokenObject
        { accessToken := some (StoredVal.record
            { access_token := some "a", expires_at := some 5 }) } =
      Except.ok (some { access_token := some "a", expires_at := some 5 }) := by
  rfl

/-- C2, amended: getAccessTokenObject and getAccessToken ignore expiry and
have no side effect — an expired record with a truthy access_token is
returned as is — while the expiry check and the removal side effect live
only in isAccessTokenValid, which removes the record exactly when its
expiry is truthy (present and nonzero) and strictly below now, reporting
it invalid; a record whose expiry equals now, or whose expiry is the falsy
value 0, is left in place and still reported invalid. -/
theorem C2_expired_reads (store : Store) (r : TokenRecord) (e : Int)
    (now : Nat)
    (hslot : store.accessToken = some (StoredVal.record r))
    (htok : truthyStr r.access_token = true)
    (he : r.expires_at = some e)
    (hexp : e ≤ (now : Int)) :
    getAccessTokenObject store = Except.ok (some r) ∧
    getAccessToken store = Except.ok r.access_token ∧
    (e ≠ 0 → e < (now : Int) →
      isAccessTokenValid store now = Except.ok (logout store, false)) ∧
    (e = 0 →
      isAccessTokenValid store now = Except.ok (store, false)) ∧
    (e = (now : Int) →
      isAccessTokenValid store now = Except.ok (store, false)) := by
  have hval : tokenTruthyAndNotExpired (some r) now = false :=
    (C9_validity r now).2 e he hexp
  refine ⟨?_, ?_, ?_, ?_, ?_⟩
  · unfold getAccessTokenObject
    rw [hslot]
    simp [jsonParse, htok]
  · unfold getAccessToken
    rw [hslot]
    simp [jsonParse, htok]
  · intro hne hlt
    unfold isAccessTokenValid
    rw [hslot]
    simp only [jsonParse]
    rw [he, hval]
    dsimp only
    have hcond : (e != 0 && decide (e < (now : Int))) = true := by
      simp [hne, hlt]
    simp [hcond]
  · intro hzero
    unfold isAccessTokenValid
    rw [hslot]
    simp only [jsonParse]
    rw [he, hval]
    dsimp only
    have hcond : (e != 0 && decide (e < (now : Int))) = false := by
      subst hzero
      simp
    simp [hcond]
  · intro heq
    unfold isAccessTokenValid
    rw [hslot]
    simp only [jsonParse]
    rw [he, hval]
    dsimp only
    have hcond : (e != 0 && decide (e < (now : Int))) = false := by
      subst heq
      simp
    simp [hcond]

/-- Witness for C2 amended: a record with expiry 5 and token "a" at time 10
is returned whole by getAccessTokenObject, and isAccessTokenValid removes
it and reports false; but a record with the falsy expiry 0, also strictly
below time 10, is left in place while still reported invalid. -/
theorem C2_witness :
    getAccessTokenObject
        { accessToken := some (StoredVal.record
            { access_token := some "a", expires_at := some 5 }) } =
      Except.ok (some { access_token := some "a", expires_at := some 5 }) ∧
    isAccessTokenValid
        { accessToken := some (StoredVal.record
            { access_token := some "a", expires_at := some 5 }) } 10 =
      Except.ok
        (logout { accessToken := some (StoredVal.record
            { access_token := some "a", expires_at := some 5 }) }, false) ∧
    isAccessTokenValid
        { accessToken := some (StoredVal.record
            { access_token := some "a", expires_at := some 0 }) } 10 =
      Except.ok
        ({ accessToken := some (StoredVal.record
            { access_token := some "a", expires_at := some 0 }) }, false) :=
  ⟨(C2_expired_reads _ _ 5 10 rfl (by decide) rfl (by decide)).1,
   (C2_expired_reads _ _ 5 10 rfl (by decide) rfl (by decide)).2.2.1
     (by decide) (by decide),
   (C2_expired_reads _ _ 0 10 rfl (by decide) rfl (by decide)).2.2.2.1 rfl⟩

/-- C3, counterexample: the guest slot holds an expired record (expiry 5 at
time 10) and the access slot a valid one (expiry 100); getGuestToken does
not fall back to the access token — it takes the server issuance path,
here rejecting because no guest URL is configured — instead of resolving
to "a". -/
theorem C3_counterexample :
    getGuestToken {}
        { guestToken := some (StoredVal.record
            { access_token := some "g", expires_at := some 5 })
          accessToken := some (StoredVal.record
            { access_token := some "a", expires_at := some 100 }) }
        10 (Except.ok {}) =
      Except.ok
        { store :=
            { guestToken := some (StoredVal.record
                { access_token := some "g", expires_at := some 5 })
              accessToken := some (StoredVal.record
                { access_token := some "a", expires_at := some 100 }) }
          outcome := Outcome.rejected
            (JsError.errorMsg "No Server Implementation")
          networkCalled := false } := by
  rfl

/-- C3, amended: the fallback to the access-token slot happens only when
the guest slot parses to a falsy value (absent), not when it holds an
expired record. With an absent guest slot and a present, non-expired
access record, getGuestToken resolves that record's access token with no
network call; with a present guest record that fails the validity test it
takes the server issuance path regardless of the access slot. -/
theorem C3_guest_fallback (cfg : Config) (store : Store) (now : Nat)
    (net : Except JsError TokenRecord) (r : TokenRecord) :
    (store.guestToken = none →
      store.accessToken = some (StoredVal.record r) →
      tokenTruthyAndNotExpired (some r) now = true →
      getGuestToken cfg store now net =
        Except.ok
          { store := store
            outcome := Outcome.resolved r.access_token
            networkCalled := false }) ∧
    (store.guestToken = some (StoredVal.record r) →
      tokenTruthyAndNotExpired (some r) now = false →
      getGuestToken cfg store now net =
        Except.ok (getGuestTokenFromServer cfg store now net)) := by
  constructor
  · intro hg ha hv
    unfold getGuestToken
    rw [hg]
    dsimp only [jsonParse]
    rw [ha]
    dsimp only [jsonParse]
    rw [if_pos hv]
    rfl
  · intro hg hv
    unfold getGuestToken
    rw [hg]
    dsimp only [jsonParse]
    rw [if_neg (by simp [hv])]

/-- Witness for C3 amended: empty guest slot, valid access record "a"
(expiry 100) at time 10 — getGuestToken resolves "a" without a network
call. -/
theorem C3_witness :
    getGuestToken {}
        { accessToken := some (StoredVal.record
            { access_token := some "a", expires_at := some 100 }) }
        10 (Except.ok {}) =
      Except.ok
        { store := { accessToken := some (StoredVal.record
            { access_token := some "a", expires_at := some 100 }) }
          outcome := Outcome.resolved (some "a")
          networkCalled := false } :=
  (C3_guest_fallback {}
      { accessToken := some (StoredVal.record
          { access_token := some "a", expires_at := some 100 }) }
      10 (Except.ok {})
      { access_token := some "a", expires_at := some 100 }).1
    rfl rfl (by decide)

/-- C4, counterexample: with a malformed value in the access-token slot,
the header resolution of authorizedApiRequest rejects with the JSON.parse
error — it neither resolves null nor is this the allowed guest-issuance
failure case. -/
theorem C4_counterexample :
    authHeaderUser {} { accessToken := some StoredVal.malformed } 0
        (Except.ok {}) =
      ({ accessToken := some StoredVal.malformed },
        Outcome.rejected JsError.parseFailure) := by
  rfl

/-- C4, amended: the header resolution of authorizedApiRequest rejects
exactly when the access-token slot is malformed (with the parse error),
and the one of authorizedAsGuestApiRequest exactly when a slot parsed by
getGuestToken is malformed; a refresh transport failure, and a rejection
out of getGuestToken (guest-issuance failure), do not resolve the header
to null and do not propagate as a rejection — the header promise never
settles. -/
theorem C4_header_resolution (cfg : Config) (store : Store) (now : Nat)
    (net : Except JsError TokenRecord) (r : TokenRecord) (e : JsError) :
    ((authHeaderUser cfg store now net).2 = Outcome.rejected e →
      store.accessToken = some StoredVal.malformed ∧
        e = JsError.parseFailure) ∧
    (store.accessToken = some (StoredVal.record r) →
      refreshDue cfg r now = true →
      (authHeaderUser cfg store now (Except.error e)).2 = Outcome.pending) ∧
    ((authHeaderGuest cfg store now net).2 = Outcome.rejected e →
      e = JsError.parseFailure ∧
        (store.guestToken = some StoredVal.malformed ∨
          store.accessToken = some StoredVal.malformed)) ∧
    (∀ res : OpResult (Option String),
      getGuestToken cfg store now net = Except.ok res →
      res.outcome = Outcome.rejected e →
      (authHeaderGuest cfg store now net).2 = Outcome.pending) := by
  refine ⟨?_, ?_, ?_, ?_⟩
  · intro h
    unfold authHeaderUser at h
    cases hacc : store.accessToken with
    | none =>
      rw [hacc] at h
      dsimp only [jsonParse] at h
      cases h
    | some v =>
      cases v with
      | malformed =>
        rw [hacc] at h
        dsimp only [jsonParse] at h
        injection h with h2
        exact ⟨rfl, h2.symm⟩
      | record token =>
        rw [hacc] at h
        dsimp only [jsonParse] at h
        by_cases hdue : refreshDue cfg token now = true
        · rw [if_pos hdue] at h
          cases ho : (refreshAccessToken cfg store now net).outcome with
          | resolved a => rw [ho] at h; cases h
          | rejected e2 => rw [ho] at h; cases h
          | pending => rw [ho] at h; cases h
        · rw [if_neg hdue] at h
          cases h
  · intro hslot hdue
    have hurl : truthyStr cfg.refreshTokenUrl = true := by
      have h2 := hdue
      unfold refreshDue at h2
      simp only [Bool.and_eq_true] at h2
      exact h2.1.1
    have href : refreshAccessToken cfg store now (Except.error e) =
        { store := store
          outcome := Outcome.rejected e
          networkCalled := true } := by
      unfold refreshAccessToken
      rw [if_pos hurl]
    unfold authHeaderUser
    rw [hslot]
    dsimp only [jsonParse]
    rw [if_pos hdue, href]
  · intro h
    unfold authHeaderGuest at h
    cases hg : getGuestToken cfg store now net with
    | error e2 =>
      rw [hg] at h
      dsimp only at h
      injection h with h2
      obtain ⟨hpf, hor⟩ := getGuestToken_error_malformed cfg store now net e2 hg
      exact ⟨h2 ▸ hpf, hor⟩
    | ok res =>
      rw [hg] at h
      dsimp only at h
      cases ho : res.outcome with
      | resolved a => rw [ho] at h; cases h
      | rejected e2 => rw [ho] at h; cases h
      | pending => rw [ho] at h; cases h
  · intro res hres hrej
    unfold authHeaderGuest
    rw [hres]
    dsimp only
    rw [hrej]

/-- Witness for C4 amended: an expired record (expiry 5, token present) at
time 10 with a refresh URL configured and a failing refresh transport —
the header promise of authorizedApiRequest stays pending. -/
theorem C4_witness :
    (authHeaderUser { refreshTokenUrl := some "u" }
        { accessToken := some (StoredVal.record
            { access_token := some "a", expires_at := some 5 }) }
        10 (Except.error (JsError.errorMsg "net down"))).2 =
      Outcome.pending :=
  (C4_header_resolution { refreshTokenUrl := some "u" }
      { accessToken := some (StoredVal.record
          { access_token := some "a", expires_at := some 5 }) }
      10 (Except.ok {})
      { access_token := some "a", expires_at := some 5 }
      (JsError.errorMsg "net down")).2.1 rfl (by decide)

end SparkClient
